import Mathlib

/-!
Shallow embedding of the two ZLDSP engines:

* `zldsp.compressor.KneeComputer` — the compression transfer-curve
  synthesizer from `src/compressor/computer/knee_computer.hpp`.
* `zldsp.filter.Ideal` — the ideal-prototype filter response engine from
  `src/filter/ideal_filter/single_filter.hpp`.

Machine floating-point (`FloatType`) is modelled by exact rationals `ℚ`;
the decibel conversions (`std::log10` / `kfr::log10`) are modelled over
`ℝ` with `Real.logb 10`.  The sequential content of the atomic
publish/pull protocol is modelled by explicit state passing: each C++
member function becomes a Lean function from the engine state to a new
state (plus its return value).
-/

set_option maxHeartbeats 1000000

namespace zldsp

namespace compressor

/-- `LinearCurve<FloatType>`: the straight compression line beyond the knee;
field `b` and `c` as in the source, its `a` being absent (zero). -/
structure LinearCurve where
  b : ℚ
  c : ℚ
deriving Repr

/-- `LinearCurve::setPara(t, r, w)` (the third argument is unused). -/
def LinearCurve.setPara (t r _w : ℚ) : LinearCurve :=
  { b := 1 / r, c := t * (1 - 1 / r) }

/-- `DownCurve<FloatType>`: fields `a` and `c`; its `b` is the constant 0. -/
structure DownCurve where
  a : ℚ
  c : ℚ
deriving Repr

/-- `DownCurve::b`, a compile-time constant 0. -/
def DownCurve.bconst : ℚ := 0

/-- `DownCurve::setPara(t, r, w)`. -/
def DownCurve.setPara (t r w : ℚ) : DownCurve :=
  { a := (1/2) / (r * min (t + w) (-(1/10000))),
    c := (1/2) * (w - t) / r + t }

/-- `UpCurve<FloatType>`: fields `a` and `c`; its `b` is the constant 1. -/
structure UpCurve where
  a : ℚ
  c : ℚ
deriving Repr

/-- `UpCurve::b`, a compile-time constant 1. -/
def UpCurve.bconst : ℚ := 1

/-- `UpCurve::setPara(t, r, w)`. -/
def UpCurve.setPara (t r w : ℚ) : UpCurve :=
  { a := (1/2) * (1 - r) / (r * min (t + w) (-(1/10000))),
    c := (1/2) * (1 - r) * (w - t) / r }

/-- State of `KneeComputer<FloatType>`.  The defaults are the C++ member
initializers.  `para_mid_g0` / `para_high_g0` are indeterminate in C++
until the first `interpolate()`; they are initialized to zeros here (no
claim reads them before a recompute). -/
@[ext]
structure KneeComputer where
  threshold : ℚ := -18
  ratio : ℚ := 2
  knee_w : ℚ := 1/4
  curve : ℚ := 0
  low_th : ℚ := 0
  high_th : ℚ := 0
  para_mid_g0 : ℚ × ℚ × ℚ := (0, 0, 0)
  para_high_g0 : ℚ × ℚ × ℚ := (0, 0, 0)
  to_interpolate : Bool := true
deriving Repr

/-- A freshly constructed `KneeComputer()`. -/
def KneeComputer.init : KneeComputer := {}

/-- `KneeComputer::interpolate()`: recompute `low_th_`, `high_th_`,
`para_mid_g0_` and `para_high_g0_` from the stored parameters. -/
def KneeComputer.interpolate (k : KneeComputer) : KneeComputer :=
  let t := k.threshold
  let w := k.knee_w
  let r := k.ratio
  let cu := k.curve
  let low := t - w
  let high := t + w
  let a0 := (1 / r - 1) / (w * 4)
  let a1 := -low
  let a0a1 := a0 * a1
  let mid : ℚ × ℚ × ℚ := (a0, 2 * a0a1 + 1, a0a1 * a1)
  let hi : ℚ × ℚ × ℚ :=
    if 0 ≤ cu then
      let alpha := 1 - cu
      let beta := cu
      let lc := LinearCurve.setPara t r w
      let dc := DownCurve.setPara t r w
      (beta * dc.a, alpha * lc.b + beta * DownCurve.bconst,
        alpha * lc.c + beta * dc.c)
    else
      let alpha := 1 + cu
      let beta := -cu
      let lc := LinearCurve.setPara t r w
      let uc := UpCurve.setPara t r w
      (beta * uc.a, alpha * lc.b + beta * UpCurve.bconst,
        alpha * lc.c + beta * uc.c)
  { k with low_th := low, high_th := high, para_mid_g0 := mid, para_high_g0 := hi }

/-- `KneeComputer::prepareBuffer()`: atomically claim the dirty flag
(`to_interpolate_.exchange(false)`); on `true` run `interpolate()` once and
return `true`, otherwise return `false` and leave the state unchanged. -/
def KneeComputer.prepareBuffer (k : KneeComputer) : KneeComputer × Bool :=
  if k.to_interpolate then
    (KneeComputer.interpolate { k with to_interpolate := false }, true)
  else (k, false)

/-- `KneeComputer::eval(x)`. -/
def KneeComputer.eval (k : KneeComputer) (x : ℚ) : ℚ :=
  if x ≤ k.low_th then x
  else if k.high_th ≤ x then
    let x' := min x 0
    (k.para_high_g0.1 * x' + k.para_high_g0.2.1) * x' + k.para_high_g0.2.2
  else
    (k.para_mid_g0.1 * x + k.para_mid_g0.2.1) * x + k.para_mid_g0.2.2

/-- `KneeComputer::process(x) = eval(x) - x`. -/
def KneeComputer.process (k : KneeComputer) (x : ℚ) : ℚ :=
  k.eval x - x

/-- `KneeComputer::setThreshold(v)`. -/
def KneeComputer.setThreshold (k : KneeComputer) (v : ℚ) : KneeComputer :=
  { k with threshold := v, to_interpolate := true }

/-- `KneeComputer::setRatio(v)`: stores `max(1, v)`. -/
def KneeComputer.setRatio (k : KneeComputer) (v : ℚ) : KneeComputer :=
  { k with ratio := max 1 v, to_interpolate := true }

/-- `KneeComputer::setKneeW(v)`: stores `max(v, 0.01)`. -/
def KneeComputer.setKneeW (k : KneeComputer) (v : ℚ) : KneeComputer :=
  { k with knee_w := max v (1/100), to_interpolate := true }

/-- `KneeComputer::setCurve(v)`: stores `clamp(v, -1, 1)`. -/
def KneeComputer.setCurve (k : KneeComputer) (v : ℚ) : KneeComputer :=
  { k with curve := min (max v (-1)) 1, to_interpolate := true }

/-- The mid-region quadratic `para_mid_g0_` evaluated (Horner form, as in
`eval`) at a point. -/
def KneeComputer.midAt (k : KneeComputer) (x : ℚ) : ℚ :=
  (k.para_mid_g0.1 * x + k.para_mid_g0.2.1) * x + k.para_mid_g0.2.2

/-- The high-region quadratic `para_high_g0_` evaluated (Horner form, as in
`eval`) at a point. -/
def KneeComputer.highAt (k : KneeComputer) (x : ℚ) : ℚ :=
  (k.para_high_g0.1 * x + k.para_high_g0.2.1) * x + k.para_high_g0.2.2

/-- One control-path setter call on a `KneeComputer`. -/
inductive KneeOp where
  | setThreshold (v : ℚ)
  | setRatio (v : ℚ)
  | setKneeW (v : ℚ)
  | setCurve (v : ℚ)
deriving Repr

/-- Apply one setter call. -/
def KneeComputer.applyOp (k : KneeComputer) : KneeOp → KneeComputer
  | .setThreshold v => k.setThreshold v
  | .setRatio v => k.setRatio v
  | .setKneeW v => k.setKneeW v
  | .setCurve v => k.setCurve v

/-- Apply a sequence of setter calls, oldest first. -/
def KneeComputer.applyOps (k : KneeComputer) (ops : List KneeOp) : KneeComputer :=
  ops.foldl KneeComputer.applyOp k

/-- The argument of a `setThreshold` call, `none` for other setters. -/
def kneeThresholdArg : KneeOp → Option ℚ
  | .setThreshold v => some v
  | _ => none

/-- The argument of the last `setThreshold` in the sequence, if any. -/
def lastThreshold? : List KneeOp → Option ℚ
  | [] => none
  | o :: rest => (lastThreshold? rest).elim (kneeThresholdArg o) some

/-- The argument of a `setRatio` call, `none` for other setters. -/
def kneeRatioArg : KneeOp → Option ℚ
  | .setRatio v => some v
  | _ => none

/-- The argument of the last `setRatio` in the sequence, if any. -/
def lastRatio? : List KneeOp → Option ℚ
  | [] => none
  | o :: rest => (lastRatio? rest).elim (kneeRatioArg o) some

/-- The argument of a `setKneeW` call, `none` for other setters. -/
def kneeKneeWArg : KneeOp → Option ℚ
  | .setKneeW v => some v
  | _ => none

/-- The argument of the last `setKneeW` in the sequence, if any. -/
def lastKneeW? : List KneeOp → Option ℚ
  | [] => none
  | o :: rest => (lastKneeW? rest).elim (kneeKneeWArg o) some

/-- The argument of a `setCurve` call, `none` for other setters. -/
def kneeCurveArg : KneeOp → Option ℚ
  | .setCurve v => some v
  | _ => none

/-- The argument of the last `setCurve` in the sequence, if any. -/
def lastCurve? : List KneeOp → Option ℚ
  | [] => none
  | o :: rest => (lastCurve? rest).elim (kneeCurveArg o) some

/-- Zero or one setter call from an optional argument. -/
def optOps (f : ℚ → KneeOp) : Option ℚ → List KneeOp
  | some v => [f v]
  | none => []

/-- The sequence that issues only the final value of each parameter that
appears in `ops` (one setter call per touched parameter). -/
def kneeFinalOps (ops : List KneeOp) : List KneeOp :=
  optOps KneeOp.setThreshold (lastThreshold? ops) ++
    optOps KneeOp.setRatio (lastRatio? ops) ++
    optOps KneeOp.setKneeW (lastKneeW? ops) ++
    optOps KneeOp.setCurve (lastCurve? ops)

/-- One step of an execution: a setter call or a `prepareBuffer` pull. -/
inductive KneeStep where
  | op (o : KneeOp)
  | pull
deriving Repr

/-- Apply one execution step. -/
def KneeComputer.applyStep (k : KneeComputer) : KneeStep → KneeComputer
  | .op o => k.applyOp o
  | .pull => k.prepareBuffer.1

/-- Run an execution from a freshly constructed computer. -/
def KneeComputer.run (steps : List KneeStep) : KneeComputer :=
  steps.foldl KneeComputer.applyStep KneeComputer.init

/-- The parameter invariant of `KneeComputer` (claim C9): the stored ratio,
knee width and curve shape are always in their legal domains, and the knee
boundaries are always ordered. -/
def KneeComputer.paramInvariant (k : KneeComputer) : Prop :=
  1 ≤ k.ratio ∧ 1/100 ≤ k.knee_w ∧ -1 ≤ k.curve ∧ k.curve ≤ 1 ∧
    k.low_th ≤ k.high_th

end compressor

namespace filter

/-- Modelled from the spec: `FilterType` (declared in
`src/filter/filter_design/filter_design.hpp`, which is not among the given
sources): the enumerated filter kinds — low/high shelf, tilt shelf,
low-pass, high-pass, peak, band-pass, notch.  `Ideal`'s default is
`kPeak`. -/
inductive FilterType where
  | kPeak
  | kLowShelf
  | kHighShelf
  | kTiltShelf
  | kLowPass
  | kHighPass
  | kBandPass
  | kNotch
deriving DecidableEq, Repr

/-- One coefficient section, `std::array<double, 6>`. -/
abbrev Coeff : Type := List ℚ

/-- Modelled from the spec: the external coefficient-design table
(`FilterDesign::updateCoeffs` instantiated with the `IdealCoeff` formulas,
neither of which is among the given sources): a pure function mapping
`(filterType, order, frequency, sampleRate, gain, Q)` to the coefficient
cascade together with the active-section count. -/
abbrev DesignTable : Type :=
  FilterType → ℕ → ℚ → ℚ → ℚ → ℚ → List Coeff × ℕ

/-- Modelled from the spec: `IdealBase<FloatType>::getMagnitude` (in
`src/filter/ideal_filter/ideal_base.hpp`, not among the given sources): the
linear magnitude of one coefficient section at one angular frequency. -/
abbrev MagFn : Type := Coeff → ℚ → ℝ

/-- Modelled from the spec: the complex transfer value of one coefficient
section at one query point (`IdealBase<FloatType>::updateResponse`
evaluates it at every query point). -/
abbrev RespFn : Type := Coeff → ℂ → ℂ

/-- `l` resized to length `n`: kept prefix plus value-initialized (`pad`)
new elements, as `std::vector::resize`. -/
def resizeList {α : Type} (l : List α) (n : ℕ) (pad : α) : List α :=
  l.take n ++ List.replicate (n - l.length) pad

/-- State of `Ideal<FloatType, FilterSize>`.  The defaults are the C++
member initializers (`coeffs_` is value-initialized; its capacity bound
`FilterSize` is not modelled because `updateParas` replaces the whole
cascade and readers use only `current_filter_num_` sections). -/
@[ext]
structure Ideal where
  coeffs : List Coeff := []
  to_update_para : Bool := true
  order : ℕ := 2
  current_filter_num : ℕ := 1
  freq : ℚ := 1000
  gain : ℚ := 0
  q : ℚ := 707/1000
  fs : ℚ := 48000
  filter_type : FilterType := .kPeak
  dbs : List ℝ := []
  gains : List ℝ := []
  response : List ℂ := []

/-- A freshly constructed `Ideal()`. -/
def Ideal.init : Ideal := {}

/-- `Ideal::prepare(sampleRate)`. -/
def Ideal.prepare (s : Ideal) (sampleRate : ℚ) : Ideal :=
  { s with fs := sampleRate, to_update_para := true }

/-- `Ideal::setFreq(x)`. -/
def Ideal.setFreq (s : Ideal) (x : ℚ) : Ideal :=
  { s with freq := x, to_update_para := true }

/-- `Ideal::setGain(x)`: stores and raises the dirty flag only when the new
value differs from the stored one by more than `1e-6`. -/
def Ideal.setGain (s : Ideal) (x : ℚ) : Ideal :=
  if 1/1000000 < |x - s.gain| then { s with gain := x, to_update_para := true }
  else s

/-- `Ideal::setQ(x)`: same epsilon suppression as `setGain`. -/
def Ideal.setQ (s : Ideal) (x : ℚ) : Ideal :=
  if 1/1000000 < |x - s.q| then { s with q := x, to_update_para := true }
  else s

/-- `Ideal::setFilterType(x)`. -/
def Ideal.setFilterType (s : Ideal) (x : FilterType) : Ideal :=
  { s with filter_type := x, to_update_para := true }

/-- `Ideal::setOrder(x)`. -/
def Ideal.setOrder (s : Ideal) (x : ℕ) : Ideal :=
  { s with order := x, to_update_para := true }

/-- `Ideal::prepareResponseSize(x)`: resize then fill with `1 + 0i`. -/
def Ideal.prepareResponseSize (s : Ideal) (x : ℕ) : Ideal :=
  { s with response := List.replicate x 1 }

/-- `Ideal::prepareDBSize(x)`: resize `dbs_` and `gains_`. -/
def Ideal.prepareDBSize (s : Ideal) (x : ℕ) : Ideal :=
  { s with dbs := resizeList s.dbs x 0, gains := resizeList s.gains x 0 }

/-- `Ideal::getMagOutdated()`. -/
def Ideal.getMagOutdated (s : Ideal) : Bool := s.to_update_para

/-- `Ideal::setToUpdate()`. -/
def Ideal.setToUpdate (s : Ideal) : Ideal :=
  { s with to_update_para := true }

/-- `Ideal::updateParas()`: query the external design table and replace the
coefficient cascade and the active-section count. -/
def Ideal.updateParas (tbl : DesignTable) (s : Ideal) : Ideal :=
  let r := tbl s.filter_type s.order s.freq s.fs s.gain s.q
  { s with coeffs := r.1, current_filter_num := r.2 }

/-- `Ideal::updateResponse(wis)`: claim the dirty flag; on success refresh
the coefficients, reset the response buffer to `1` and multiply in each
active section's transfer value at each query point. -/
def Ideal.updateResponse (tbl : DesignTable) (resp : RespFn) (wis : List ℂ)
    (s : Ideal) : Ideal × Bool :=
  if s.to_update_para then
    let s1 := Ideal.updateParas tbl { s with to_update_para := false }
    let r0 : List ℂ := s1.response.map (fun _ => 1)
    let r1 := (List.range s1.current_filter_num).foldl
      (fun acc i => List.zipWith (fun h w => h * resp (s1.coeffs.getD i []) w) acc wis) r0
    ({ s1 with response := r1 }, true)
  else (s, false)

/-- `Ideal::updateMagnitude(ws)`: claim the dirty flag; on success refresh
the coefficients, reset the linear-gain buffer to `1`, multiply in each
active section's magnitude at each query frequency, and store
`log10(max(gain, 1e-12) * 20)` into the decibel buffer.  (The factor 20
sits inside the logarithm exactly as in the source line
`db_v = kfr::log10(kfr::max(gain_v, FloatType(1e-12)) * FloatType(20))`.) -/
noncomputable def Ideal.updateMagnitude (tbl : DesignTable) (mag : MagFn)
    (ws : List ℚ) (s : Ideal) : Ideal × Bool :=
  if s.to_update_para then
    let s1 := Ideal.updateParas tbl { s with to_update_para := false }
    let g0 : List ℝ := s1.gains.map (fun _ => 1)
    let g1 := (List.range s1.current_filter_num).foldl
      (fun acc i => List.zipWith (fun g w => g * mag (s1.coeffs.getD i []) w) acc ws) g0
    let d1 := g1.map (fun g => Real.logb 10 (max g (1/10^12) * 20))
    ({ s1 with gains := g1, dbs := d1 }, true)
  else (s, false)

/-- The product `g0` accumulated by `Ideal::getDB(w)` over the active
sections. -/
noncomputable def Ideal.g0At (mag : MagFn) (s : Ideal) (w : ℚ) : ℝ :=
  (List.range s.current_filter_num).foldl
    (fun acc i => acc * mag (s.coeffs.getD i []) w) 1

/-- `Ideal::getDB(w)`: `20·log10(g0)` when the accumulated magnitude
product is positive, else the fixed sentinel `-480`. -/
noncomputable def Ideal.getDB (mag : MagFn) (s : Ideal) (w : ℚ) : ℝ :=
  if 0 < s.g0At mag w then Real.logb 10 (s.g0At mag w) * 20 else -480

/-- `Ideal::addDBs(x)`: elementwise add the cached decibel buffer. -/
def Ideal.addDBs (s : Ideal) (x : List ℝ) : List ℝ :=
  List.zipWith (fun a b => a + b) x s.dbs

/-- One control-path setter call on an `Ideal`. -/
inductive FilterOp where
  | prepare (fs : ℚ)
  | setFreq (v : ℚ)
  | setGain (v : ℚ)
  | setQ (v : ℚ)
  | setFilterType (t : FilterType)
  | setOrder (n : ℕ)
deriving Repr

/-- Apply one setter call. -/
def Ideal.applyOp (s : Ideal) : FilterOp → Ideal
  | .prepare v => s.prepare v
  | .setFreq v => s.setFreq v
  | .setGain v => s.setGain v
  | .setQ v => s.setQ v
  | .setFilterType t => s.setFilterType t
  | .setOrder n => s.setOrder n

/-- Apply a sequence of setter calls, oldest first. -/
def Ideal.applyOps (s : Ideal) (ops : List FilterOp) : Ideal :=
  ops.foldl Ideal.applyOp s

/-- No `setGain`/`setQ` call of the sequence is suppressed by the `1e-6`
epsilon rule when the sequence is applied to `s`. -/
def Ideal.noSuppress : Ideal → List FilterOp → Prop
  | _, [] => True
  | s, o :: rest =>
    (match o with
      | .setGain v => 1/1000000 < |v - s.gain|
      | .setQ v => 1/1000000 < |v - s.q|
      | _ => True) ∧ Ideal.noSuppress (s.applyOp o) rest

/-- The argument of a sample-rate write `prepare` call, `none` for other setters. -/
def filterFsArg : FilterOp → Option ℚ
  | .prepare v => some v
  | _ => none

/-- The argument of the last sample-rate write `prepare` in the sequence, if any. -/
def lastFs? : List FilterOp → Option ℚ
  | [] => none
  | o :: rest => (lastFs? rest).elim (filterFsArg o) some

/-- The argument of a `setFreq` call, `none` for other setters. -/
def filterFreqArg : FilterOp → Option ℚ
  | .setFreq v => some v
  | _ => none

/-- The argument of the last `setFreq` in the sequence, if any. -/
def lastFreq? : List FilterOp → Option ℚ
  | [] => none
  | o :: rest => (lastFreq? rest).elim (filterFreqArg o) some

/-- The argument of a `setGain` call, `none` for other setters. -/
def filterGainArg : FilterOp → Option ℚ
  | .setGain v => some v
  | _ => none

/-- The argument of the last `setGain` in the sequence, if any. -/
def lastGain? : List FilterOp → Option ℚ
  | [] => none
  | o :: rest => (lastGain? rest).elim (filterGainArg o) some

/-- The argument of a `setQ` call, `none` for other setters. -/
def filterQArg : FilterOp → Option ℚ
  | .setQ v => some v
  | _ => none

/-- The argument of the last `setQ` in the sequence, if any. -/
def lastQ? : List FilterOp → Option ℚ
  | [] => none
  | o :: rest => (lastQ? rest).elim (filterQArg o) some

/-- The argument of a `setFilterType` call, `none` for other setters. -/
def filterTypeArg : FilterOp → Option FilterType
  | .setFilterType v => some v
  | _ => none

/-- The argument of the last `setFilterType` in the sequence, if any. -/
def lastType? : List FilterOp → Option FilterType
  | [] => none
  | o :: rest => (lastType? rest).elim (filterTypeArg o) some

/-- The argument of a `setOrder` call, `none` for other setters. -/
def filterOrderArg : FilterOp → Option ℕ
  | .setOrder v => some v
  | _ => none

/-- The argument of the last `setOrder` in the sequence, if any. -/
def lastOrder? : List FilterOp → Option ℕ
  | [] => none
  | o :: rest => (lastOrder? rest).elim (filterOrderArg o) some

/-- Zero or one setter call from an optional argument. -/
def optFOps {α : Type} (f : α → FilterOp) : Option α → List FilterOp
  | some v => [f v]
  | none => []

/-- The sequence that issues only the final value of each parameter that
appears in `ops` (one setter call per touched parameter). -/
def filterFinalOps (ops : List FilterOp) : List FilterOp :=
  optFOps FilterOp.prepare (lastFs? ops) ++
    optFOps FilterOp.setFreq (lastFreq? ops) ++
    optFOps FilterOp.setGain (lastGain? ops) ++
    optFOps FilterOp.setQ (lastQ? ops) ++
    optFOps FilterOp.setFilterType (lastType? ops) ++
    optFOps FilterOp.setOrder (lastOrder? ops)

end filter

end zldsp

namespace zldsp

namespace compressor

theorem interpolate_threshold (k : KneeComputer) :
    k.interpolate.threshold = k.threshold := rfl

theorem interpolate_ratio (k : KneeComputer) :
    k.interpolate.ratio = k.ratio := rfl

theorem interpolate_knee_w (k : KneeComputer) :
    k.interpolate.knee_w = k.knee_w := rfl

theorem interpolate_curve (k : KneeComputer) :
    k.interpolate.curve = k.curve := rfl

theorem interpolate_low_th (k : KneeComputer) :
    k.interpolate.low_th = k.threshold - k.knee_w := rfl

theorem interpolate_high_th (k : KneeComputer) :
    k.interpolate.high_th = k.threshold + k.knee_w := rfl

theorem interpolate_flag (k : KneeComputer) :
    k.interpolate.to_interpolate = k.to_interpolate := rfl

/-- With unity stored ratio, the mid quadratic collapses to the identity
line. -/
theorem interpolate_mid_ratio_one (k : KneeComputer) (hr : k.ratio = 1) :
    k.interpolate.para_mid_g0 = (0, 1, 0) := by
  simp only [KneeComputer.interpolate, hr]
  norm_num

/-- With unity stored ratio and non-positive stored curve shape, the high
quadratic also collapses to the identity line. -/
theorem interpolate_high_ratio_one (k : KneeComputer) (hr : k.ratio = 1)
    (hc : k.curve ≤ 0) :
    k.interpolate.para_high_g0 = (0, 1, 0) := by
  rcases lt_or_eq_of_le hc with hneg | hzero
  · simp only [KneeComputer.interpolate, LinearCurve.setPara, UpCurve.setPara,
      UpCurve.bconst, DownCurve.setPara, DownCurve.bconst, hr,
      if_neg (not_le.mpr hneg)]
    norm_num
  · simp only [KneeComputer.interpolate, LinearCurve.setPara, UpCurve.setPara,
      UpCurve.bconst, DownCurve.setPara, DownCurve.bconst, hr, hzero]
    norm_num

/-- C2 (amended): with unity ratio and non-positive curve shape, the
recomputed transfer curve is the identity on non-positive input levels,
so `process(x) = 0` there. -/
theorem C2_unity_ratio_no_compression (k : KneeComputer)
    (hr : k.ratio = 1) (hc : k.curve ≤ 0) (x : ℚ) (hx : x ≤ 0) :
    k.interpolate.process x = 0 := by
  have hmid := interpolate_mid_ratio_one k hr
  have hhigh := interpolate_high_ratio_one k hr hc
  simp only [KneeComputer.process, KneeComputer.eval, hmid, hhigh,
    min_eq_left hx]
  split_ifs <;> ring

/-- C2 witness: a computer whose stored ratio is 1 (via `setRatio 1`) and
stored curve shape is -1/2 applies no gain change at input level -5. -/
theorem C2_unity_ratio_no_compression_witness :
    ((KneeComputer.init.setRatio 1).setCurve (-1/2)).interpolate.process (-5) = 0 := by
  exact C2_unity_ratio_no_compression _ (by norm_num [KneeComputer.init,
    KneeComputer.setRatio, KneeComputer.setCurve]) (by norm_num [KneeComputer.init,
    KneeComputer.setRatio, KneeComputer.setCurve]) _ (by norm_num)

/-- C4 (amended): for valid parameters whose high knee boundary stays at or
below the -0.0001 clamp point (threshold + kneeWidth ≤ -0.0001), the
recomputed piecewise curve is exactly continuous at both knee boundaries:
the mid quadratic meets the identity line at `lowThreshold` and meets the
high-region evaluation at `highThreshold`. -/
theorem C4_knee_continuity (k : KneeComputer)
    (hr : 1 ≤ k.ratio) (hw : 1/100 ≤ k.knee_w)
    (hcl : -1 ≤ k.curve) (hcu : k.curve ≤ 1)
    (ht : k.threshold + k.knee_w ≤ -(1/10000)) :
    k.interpolate.midAt k.interpolate.low_th = k.interpolate.low_th
    ∧ k.interpolate.midAt k.interpolate.high_th =
        k.interpolate.eval k.interpolate.high_th := by
  have hw0 : (0:ℚ) < k.knee_w := lt_of_lt_of_le (by norm_num) hw
  have hr0 : (0:ℚ) < k.ratio := lt_of_lt_of_le (by norm_num) hr
  have htw : k.threshold + k.knee_w < 0 := lt_of_le_of_lt ht (by norm_num)
  have hw0' : k.knee_w ≠ 0 := ne_of_gt hw0
  have hr0' : k.ratio ≠ 0 := ne_of_gt hr0
  have htw' : k.threshold + k.knee_w ≠ 0 := ne_of_lt htw
  have hmin : min (k.threshold + k.knee_w) (-(1/10000)) = k.threshold + k.knee_w :=
    min_eq_left ht
  have hlh : k.threshold - k.knee_w < k.threshold + k.knee_w := by linarith
  constructor
  · simp only [KneeComputer.midAt, KneeComputer.interpolate]
    ring
  · simp only [KneeComputer.midAt, KneeComputer.eval, KneeComputer.interpolate,
      LinearCurve.setPara, DownCurve.setPara, UpCurve.setPara,
      DownCurve.bconst, UpCurve.bconst, hmin]
    rw [if_neg (not_le.mpr hlh), if_pos le_rfl, min_eq_left (le_of_lt htw)]
    by_cases hcase : 0 ≤ k.curve
    · rw [if_pos hcase]
      field_simp
      ring
    · rw [if_neg hcase]
      field_simp
      ring

/-- C4 witness: the valid parameter tuple (threshold -18, ratio 4, knee
width 6, curve shape 1/2) has `threshold + kneeWidth = -12 ≤ -0.0001` and
so enjoys exact continuity at both knee boundaries. -/
theorem C4_knee_continuity_witness :
    (let k : KneeComputer := { threshold := -18, ratio := 4, knee_w := 6, curve := 1/2 };
      k.interpolate.midAt k.interpolate.low_th = k.interpolate.low_th
      ∧ k.interpolate.midAt k.interpolate.high_th =
          k.interpolate.eval k.interpolate.high_th) := by
  exact C4_knee_continuity _ (by norm_num) (by norm_num) (by norm_num)
    (by norm_num) (by norm_num)

/-- C4 counterexample: the valid tuple (threshold 0, ratio 4, knee width 6,
curve shape 0) has `highThreshold = 6 > 0`; there the mid quadratic gives
3/2 while `eval` (which clamps the input to `min(x,0) = 0` in the high
region) gives 0, so the curve is not continuous at `highThreshold` and the
claim as stated (continuity for every valid tuple, threshold any real) is
false. -/
theorem C4_knee_continuity_counterexample :
    (let i := ((((KneeComputer.init.setThreshold 0).setRatio 4).setKneeW
        6).setCurve 0).prepareBuffer.1;
      i.midAt i.high_th ≠ i.eval i.high_th) := by
  norm_num [KneeComputer.init, KneeComputer.setThreshold, KneeComputer.setRatio,
    KneeComputer.setKneeW, KneeComputer.setCurve, KneeComputer.prepareBuffer,
    KneeComputer.interpolate, KneeComputer.midAt, KneeComputer.eval,
    LinearCurve.setPara, DownCurve.setPara, DownCurve.bconst]

/-- C6: `eval` is the stated piecewise function (identity at or below the
low boundary; high-region quadratic on the input clamped to `min(x,0)` at
or above the high boundary; mid quadratic strictly between), `process`
subtracts the input, and the end-to-end example (threshold -18, ratio 4,
knee width 6, curve shape 0) gives boundaries -24 and -12, `eval(-30) =
-30`, and a finite negative `eval(0)`. -/
theorem C6_eval_piecewise :
    (∀ (k : KneeComputer) (x : ℚ), 0 < k.knee_w →
      (x ≤ k.interpolate.low_th → k.interpolate.eval x = x)
      ∧ (k.interpolate.high_th ≤ x →
          k.interpolate.eval x = k.interpolate.highAt (min x 0))
      ∧ (k.interpolate.low_th < x → x < k.interpolate.high_th →
          k.interpolate.eval x = k.interpolate.midAt x)
      ∧ k.interpolate.process x = k.interpolate.eval x - x)
    ∧ (let e := ((((KneeComputer.init.setThreshold (-18)).setRatio 4).setKneeW
          6).setCurve 0).prepareBuffer.1;
        e.low_th = -24 ∧ e.high_th = -12 ∧ e.eval (-30) = -30 ∧ e.eval 0 < 0) := by
  constructor
  · intro k x hw
    have hlh : k.interpolate.low_th < k.interpolate.high_th := by
      rw [interpolate_low_th, interpolate_high_th]; linarith
    refine ⟨fun h1 => ?_, fun h2 => ?_, fun h3 h4 => ?_, rfl⟩
    · simp only [KneeComputer.eval, if_pos h1]
    · have : ¬ x ≤ k.interpolate.low_th := not_le.mpr (lt_of_lt_of_le hlh h2)
      simp only [KneeComputer.eval, KneeComputer.highAt, if_neg this, if_pos h2]
    · simp only [KneeComputer.eval, KneeComputer.midAt, if_neg (not_le.mpr h3),
        if_neg (not_le.mpr h4)]
  · norm_num [KneeComputer.init, KneeComputer.setThreshold, KneeComputer.setRatio,
      KneeComputer.setKneeW, KneeComputer.setCurve, KneeComputer.prepareBuffer,
      KneeComputer.interpolate, KneeComputer.eval,
      LinearCurve.setPara, DownCurve.setPara, DownCurve.bconst]

/-- C6 witness: the piecewise description instantiated on the default
computer after a recompute — identity at -100 (below the knee), clamped
high-region evaluation at 0, mid-quadratic evaluation at -18, and the
`process` equation at 0. -/
theorem C6_eval_piecewise_witness :
    KneeComputer.init.interpolate.eval (-100) = -100
    ∧ KneeComputer.init.interpolate.eval 0 =
        KneeComputer.init.interpolate.highAt (min 0 0)
    ∧ KneeComputer.init.interpolate.eval (-18) =
        KneeComputer.init.interpolate.midAt (-18)
    ∧ KneeComputer.init.interpolate.process 0 =
        KneeComputer.init.interpolate.eval 0 - 0 := by
  refine ⟨(C6_eval_piecewise.1 KneeComputer.init (-100) (by norm_num
      [KneeComputer.init])).1 ?_,
    (C6_eval_piecewise.1 KneeComputer.init 0 (by norm_num [KneeComputer.init])).2.1 ?_,
    (C6_eval_piecewise.1 KneeComputer.init (-18) (by norm_num
      [KneeComputer.init])).2.2.1 ?_ ?_,
    (C6_eval_piecewise.1 KneeComputer.init 0 (by norm_num [KneeComputer.init])).2.2.2⟩
  · rw [interpolate_low_th]; norm_num [KneeComputer.init]
  · rw [interpolate_high_th]; norm_num [KneeComputer.init]
  · rw [interpolate_low_th]; norm_num [KneeComputer.init]
  · rw [interpolate_high_th]; norm_num [KneeComputer.init]

/-- C2 counterexample: with threshold -18, ratio 1, knee width 6 and curve
shape 1, the recomputed curve gives `process(0) = -6 ≠ 0`: the downward
prototype curve bends the transfer curve even at unity ratio, so the claim
as stated (no gain change at ratio 1 regardless of the other parameters)
is false. -/
theorem C2_unity_ratio_counterexample :
    ((((KneeComputer.init.setRatio 1).setThreshold (-18)).setKneeW 6).setCurve
        1).prepareBuffer.1.process 0 ≠ 0 := by
  norm_num [KneeComputer.init, KneeComputer.setRatio, KneeComputer.setThreshold,
    KneeComputer.setKneeW, KneeComputer.setCurve, KneeComputer.prepareBuffer,
    KneeComputer.interpolate, KneeComputer.process, KneeComputer.eval,
    LinearCurve.setPara, DownCurve.setPara, DownCurve.bconst]

end compressor

end zldsp

namespace zldsp

namespace compressor

/-- The parameter invariant is preserved by every setter call. -/
theorem paramInvariant_applyOp (k : KneeComputer) (o : KneeOp)
    (h : k.paramInvariant) : (k.applyOp o).paramInvariant := by
  obtain ⟨h1, h2, h3, h4, h5⟩ := h
  cases o with
  | setThreshold v => exact ⟨h1, h2, h3, h4, h5⟩
  | setRatio v => exact ⟨le_max_left 1 v, h2, h3, h4, h5⟩
  | setKneeW v => exact ⟨h1, le_max_right v (1/100), h3, h4, h5⟩
  | setCurve v =>
    exact ⟨h1, h2, le_min (le_max_right v (-1)) (by norm_num), min_le_right _ 1, h5⟩

/-- The parameter invariant is preserved by a pull. -/
theorem paramInvariant_pull (k : KneeComputer)
    (h : k.paramInvariant) : k.prepareBuffer.1.paramInvariant := by
  obtain ⟨h1, h2, h3, h4, h5⟩ := h
  by_cases hk : k.to_interpolate = true
  · simp only [KneeComputer.prepareBuffer, hk, if_true]
    refine ⟨h1, h2, h3, h4, ?_⟩
    show k.threshold - k.knee_w ≤ k.threshold + k.knee_w
    linarith
  · simp only [KneeComputer.prepareBuffer, hk, if_false]
    exact ⟨h1, h2, h3, h4, h5⟩

/-- The parameter invariant holds in every state reachable from a fresh
computer by any interleaving of setter calls and pulls. -/
theorem paramInvariant_run (steps : List KneeStep) :
    (KneeComputer.run steps).paramInvariant := by
  have hgen : ∀ (l : List KneeStep) (k : KneeComputer), k.paramInvariant →
      (l.foldl KneeComputer.applyStep k).paramInvariant := by
    intro l
    induction l with
    | nil => exact fun k hk => hk
    | cons st rest ih =>
      intro k hk
      apply ih
      cases st with
      | op o => exact paramInvariant_applyOp _ _ hk
      | pull => exact paramInvariant_pull _ hk
  exact hgen steps _ (by norm_num [KneeComputer.init, KneeComputer.paramInvariant])

/-- C9: the setters clamp their arguments (`setRatio` stores a value ≥ 1,
`setKneeW` a value ≥ 0.01, `setCurve` a value in [-1, 1]), and along every
execution of setters and pulls from a fresh computer the stored ratio,
knee width and curve shape stay in their legal domains and the knee
boundaries stay ordered; the setters are total, so no invalid state is
reachable and no error is ever reported. -/
theorem C9_clamped_setters_invariant :
    (∀ (k : KneeComputer) (v : ℚ), 1 ≤ (k.setRatio v).ratio)
    ∧ (∀ (k : KneeComputer) (v : ℚ), 1/100 ≤ (k.setKneeW v).knee_w)
    ∧ (∀ (k : KneeComputer) (v : ℚ),
        -1 ≤ (k.setCurve v).curve ∧ (k.setCurve v).curve ≤ 1)
    ∧ (∀ steps : List KneeStep, (KneeComputer.run steps).paramInvariant) :=
  ⟨fun _ v => le_max_left 1 v,
    fun _ v => le_max_right v (1/100),
    fun _ v => ⟨le_min (le_max_right v (-1)) (by norm_num), min_le_right _ 1⟩,
    paramInvariant_run⟩

end compressor

namespace filter

/-- C7: `getDB` returns `20·log10(g)` when the accumulated section
magnitude product `g` is strictly positive, and exactly the sentinel -480
when `g ≤ 0`; being real-valued, it is finite in both cases. -/
theorem C7_getDB_sentinel (mag : MagFn) (s : Ideal) (w : ℚ) :
    (0 < s.g0At mag w →
      s.getDB mag w = 20 * Real.logb 10 (s.g0At mag w))
    ∧ (s.g0At mag w ≤ 0 → s.getDB mag w = -480) := by
  constructor
  · intro h
    rw [Ideal.getDB, if_pos h, mul_comm]
  · intro h
    rw [Ideal.getDB, if_neg (not_lt.mpr h)]

/-- C7 witness: on the fresh engine, a unit-magnitude section gives
`getDB = 20·log10(1)` and an all-zero-magnitude section hits the -480
sentinel. -/
theorem C7_getDB_sentinel_witness :
    Ideal.init.getDB (fun _ _ => (1:ℝ)) 100 =
      20 * Real.logb 10 (Ideal.init.g0At (fun _ _ => (1:ℝ)) 100)
    ∧ Ideal.init.getDB (fun _ _ => (0:ℝ)) 100 = -480 := by
  constructor
  · exact (C7_getDB_sentinel (fun _ _ => (1:ℝ)) Ideal.init 100).1
      (by norm_num [Ideal.g0At, Ideal.init, List.range_succ])
  · exact (C7_getDB_sentinel (fun _ _ => (0:ℝ)) Ideal.init 100).2
      (by norm_num [Ideal.g0At, Ideal.init, List.range_succ])

/-- C8: `setGain` leaves the whole state (stored gain and dirty flag
included) unchanged when the new value is within 1e-6 of the stored one,
and stores the value and raises the dirty flag when the difference exceeds
1e-6; `setQ` behaves symmetrically with the stored Q. -/
theorem C8_epsilon_debounce (s : Ideal) (v : ℚ) :
    (|v - s.gain| ≤ 1/1000000 → s.setGain v = s)
    ∧ (1/1000000 < |v - s.gain| →
        s.setGain v = { s with gain := v, to_update_para := true })
    ∧ (|v - s.q| ≤ 1/1000000 → s.setQ v = s)
    ∧ (1/1000000 < |v - s.q| →
        s.setQ v = { s with q := v, to_update_para := true }) := by
  refine ⟨fun h => ?_, fun h => ?_, fun h => ?_, fun h => ?_⟩
  · simp only [Ideal.setGain]; rw [if_neg (not_lt.mpr h)]
  · simp only [Ideal.setGain]; rw [if_pos h]
  · simp only [Ideal.setQ]; rw [if_neg (not_lt.mpr h)]
  · simp only [Ideal.setQ]; rw [if_pos h]

/-- C8 witness: on the fresh engine (stored gain 0, stored Q 0.707),
`setGain 0` and `setQ 0.707` are suppressed no-ops while `setGain 1` and
`setQ 1` store and raise the dirty flag. -/
theorem C8_epsilon_debounce_witness :
    Ideal.init.setGain 0 = Ideal.init
    ∧ Ideal.init.setGain 1 = { Ideal.init with gain := 1, to_update_para := true }
    ∧ Ideal.init.setQ (707/1000) = Ideal.init
    ∧ Ideal.init.setQ 1 = { Ideal.init with q := 1, to_update_para := true } := by
  refine ⟨(C8_epsilon_debounce Ideal.init 0).1 ?_,
    (C8_epsilon_debounce Ideal.init 1).2.1 ?_,
    (C8_epsilon_debounce Ideal.init (707/1000)).2.2.1 ?_,
    (C8_epsilon_debounce Ideal.init 1).2.2.2 ?_⟩
  · show |0 - Ideal.init.gain| ≤ 1/1000000
    norm_num [Ideal.init]
  · show 1/1000000 < |1 - Ideal.init.gain|
    norm_num [Ideal.init]
  · show |707/1000 - Ideal.init.q| ≤ 1/1000000
    norm_num [Ideal.init]
  · show 1/1000000 < |1 - Ideal.init.q|
    rw [show |1 - Ideal.init.q| = 293/1000 by norm_num [Ideal.init, abs_of_pos]]
    norm_num

/-- C1: at a query frequency where the product of the active sections'
magnitudes is `g = 1`, the decibel buffer entry written by
`updateMagnitude` is `log10(max(g,1e-12)·20) = log10 20 ≈ 1.301`, not the
`20·log10(max(g,1e-12)) = 0` that the decibel semantics (and `getDB`)
require: the factor 20 is applied inside the logarithm. -/
theorem C1_updateMagnitude_db_formula :
    (((Ideal.init.prepareDBSize 1).updateMagnitude
        (fun _ _ _ _ _ _ => ([[1,0,0,0,0,0]], 1)) (fun _ _ => (1:ℝ)) [100]).1.dbs
      = [Real.logb 10 20])
    ∧ Real.logb 10 20 ≠ 20 * Real.logb 10 (max (1:ℝ) (1/10^12)) := by
  constructor
  · have hmax : max (1:ℝ) (1/10^12) = 1 := by norm_num
    norm_num [Ideal.updateMagnitude, Ideal.updateParas, Ideal.init,
      Ideal.prepareDBSize, resizeList, List.range_succ, hmax]
  · have hmax : max (1:ℝ) (1/10^12) = 1 := by norm_num
    rw [hmax, Real.logb_one, mul_zero]
    exact ne_of_gt (Real.logb_pos (by norm_num) (by norm_num))

end filter

end zldsp

namespace zldsp

namespace compressor

theorem applyOps_nil (k : KneeComputer) : k.applyOps [] = k := rfl

theorem applyOps_cons (k : KneeComputer) (o : KneeOp) (rest : List KneeOp) :
    k.applyOps (o :: rest) = (k.applyOp o).applyOps rest := rfl

theorem lastThreshold?_cons (o : KneeOp) (rest : List KneeOp) :
    lastThreshold? (o :: rest) = (lastThreshold? rest).elim (kneeThresholdArg o) some := rfl

/-- Stored `threshold` after a setter sequence: (clamp of) the last issued
value, else the initial one. -/
theorem applyOps_threshold (ops : List KneeOp) :
    ∀ k : KneeComputer, (k.applyOps ops).threshold = (lastThreshold? ops).getD k.threshold := by
  induction ops with
  | nil => intro k; rfl
  | cons o rest ih =>
    intro k
    rw [applyOps_cons, ih, lastThreshold?_cons]
    cases hrest : lastThreshold? rest with
    | some v => rfl
    | none =>
      cases o <;> simp [kneeThresholdArg, KneeComputer.applyOp, KneeComputer.setThreshold, KneeComputer.setRatio,
        KneeComputer.setKneeW, KneeComputer.setCurve]

theorem lastRatio?_cons (o : KneeOp) (rest : List KneeOp) :
    lastRatio? (o :: rest) = (lastRatio? rest).elim (kneeRatioArg o) some := rfl

/-- Stored `ratio` after a setter sequence: (clamp of) the last issued
value, else the initial one. -/
theorem applyOps_ratio (ops : List KneeOp) :
    ∀ k : KneeComputer, (k.applyOps ops).ratio = ((lastRatio? ops).map (fun v => max 1 v)).getD k.ratio := by
  induction ops with
  | nil => intro k; rfl
  | cons o rest ih =>
    intro k
    rw [applyOps_cons, ih, lastRatio?_cons]
    cases hrest : lastRatio? rest with
    | some v => rfl
    | none =>
      cases o <;> simp [kneeRatioArg, KneeComputer.applyOp, KneeComputer.setThreshold, KneeComputer.setRatio,
        KneeComputer.setKneeW, KneeComputer.setCurve]

theorem lastKneeW?_cons (o : KneeOp) (rest : List KneeOp) :
    lastKneeW? (o :: rest) = (lastKneeW? rest).elim (kneeKneeWArg o) some := rfl

/-- Stored `knee_w` after a setter sequence: (clamp of) the last issued
value, else the initial one. -/
theorem applyOps_knee_w (ops : List KneeOp) :
    ∀ k : KneeComputer, (k.applyOps ops).knee_w = ((lastKneeW? ops).map (fun v => max v (1/100))).getD k.knee_w := by
  induction ops with
  | nil => intro k; rfl
  | cons o rest ih =>
    intro k
    rw [applyOps_cons, ih, lastKneeW?_cons]
    cases hrest : lastKneeW? rest with
    | some v => rfl
    | none =>
      cases o <;> simp [kneeKneeWArg, KneeComputer.applyOp, KneeComputer.setThreshold, KneeComputer.setRatio,
        KneeComputer.setKneeW, KneeComputer.setCurve]

theorem lastCurve?_cons (o : KneeOp) (rest : List KneeOp) :
    lastCurve? (o :: rest) = (lastCurve? rest).elim (kneeCurveArg o) some := rfl

/-- Stored `curve` after a setter sequence: (clamp of) the last issued
value, else the initial one. -/
theorem applyOps_curve (ops : List KneeOp) :
    ∀ k : KneeComputer, (k.applyOps ops).curve = ((lastCurve? ops).map (fun v => min (max v (-1)) 1)).getD k.curve := by
  induction ops with
  | nil => intro k; rfl
  | cons o rest ih =>
    intro k
    rw [applyOps_cons, ih, lastCurve?_cons]
    cases hrest : lastCurve? rest with
    | some v => rfl
    | none =>
      cases o <;> simp [kneeCurveArg, KneeComputer.applyOp, KneeComputer.setThreshold, KneeComputer.setRatio,
        KneeComputer.setKneeW, KneeComputer.setCurve]

/-- Setter sequences never touch the derived model state. -/
theorem applyOps_keeps (ops : List KneeOp) :
    ∀ k : KneeComputer,
      (k.applyOps ops).low_th = k.low_th
      ∧ (k.applyOps ops).high_th = k.high_th
      ∧ (k.applyOps ops).para_mid_g0 = k.para_mid_g0
      ∧ (k.applyOps ops).para_high_g0 = k.para_high_g0 := by
  induction ops with
  | nil => exact fun k => ⟨rfl, rfl, rfl, rfl⟩
  | cons o rest ih =>
    intro k
    rw [applyOps_cons]
    obtain ⟨i1, i2, i3, i4⟩ := ih (k.applyOp o)
    cases o <;> exact ⟨i1, i2, i3, i4⟩

/-- Every setter raises the dirty flag. -/
theorem applyOp_flag (k : KneeComputer) (o : KneeOp) :
    (k.applyOp o).to_interpolate = true := by
  cases o <;> rfl

theorem applyOps_flag_or (ops : List KneeOp) :
    ∀ k : KneeComputer,
      (k.applyOps ops).to_interpolate = true ∨ k.applyOps ops = k := by
  induction ops with
  | nil => exact fun k => Or.inr rfl
  | cons o rest ih =>
    intro k
    rw [applyOps_cons]
    rcases ih (k.applyOp o) with h | h
    · exact Or.inl h
    · exact Or.inl (by rw [h]; exact applyOp_flag k o)

/-- A nonempty setter sequence leaves the dirty flag raised. -/
theorem applyOps_flag_of_ne (ops : List KneeOp) (h : ops ≠ []) (k : KneeComputer) :
    (k.applyOps ops).to_interpolate = true := by
  cases ops with
  | nil => exact absurd rfl h
  | cons o rest =>
    rw [applyOps_cons]
    rcases applyOps_flag_or rest (k.applyOp o) with h1 | h1
    · exact h1
    · rw [h1]; exact applyOp_flag k o

theorem lastThreshold?_append_some (l1 l2 : List KneeOp) (v : ℚ)
    (h : lastThreshold? l2 = some v) : lastThreshold? (l1 ++ l2) = some v := by
  induction l1 with
  | nil => exact h
  | cons o r ih =>
    rw [List.cons_append, lastThreshold?_cons, ih]
    rfl

theorem lastThreshold?_append_none (l1 l2 : List KneeOp)
    (h : lastThreshold? l2 = none) : lastThreshold? (l1 ++ l2) = lastThreshold? l1 := by
  induction l1 with
  | nil => exact h
  | cons o r ih =>
    rw [List.cons_append, lastThreshold?_cons, ih, lastThreshold?_cons]

theorem lastRatio?_append_some (l1 l2 : List KneeOp) (v : ℚ)
    (h : lastRatio? l2 = some v) : lastRatio? (l1 ++ l2) = some v := by
  induction l1 with
  | nil => exact h
  | cons o r ih =>
    rw [List.cons_append, lastRatio?_cons, ih]
    rfl

theorem lastRatio?_append_none (l1 l2 : List KneeOp)
    (h : lastRatio? l2 = none) : lastRatio? (l1 ++ l2) = lastRatio? l1 := by
  induction l1 with
  | nil => exact h
  | cons o r ih =>
    rw [List.cons_append, lastRatio?_cons, ih, lastRatio?_cons]

theorem lastKneeW?_append_some (l1 l2 : List KneeOp) (v : ℚ)
    (h : lastKneeW? l2 = some v) : lastKneeW? (l1 ++ l2) = some v := by
  induction l1 with
  | nil => exact h
  | cons o r ih =>
    rw [List.cons_append, lastKneeW?_cons, ih]
    rfl

theorem lastKneeW?_append_none (l1 l2 : List KneeOp)
    (h : lastKneeW? l2 = none) : lastKneeW? (l1 ++ l2) = lastKneeW? l1 := by
  induction l1 with
  | nil => exact h
  | cons o r ih =>
    rw [List.cons_append, lastKneeW?_cons, ih, lastKneeW?_cons]

theorem lastCurve?_append_some (l1 l2 : List KneeOp) (v : ℚ)
    (h : lastCurve? l2 = some v) : lastCurve? (l1 ++ l2) = some v := by
  induction l1 with
  | nil => exact h
  | cons o r ih =>
    rw [List.cons_append, lastCurve?_cons, ih]
    rfl

theorem lastCurve?_append_none (l1 l2 : List KneeOp)
    (h : lastCurve? l2 = none) : lastCurve? (l1 ++ l2) = lastCurve? l1 := by
  induction l1 with
  | nil => exact h
  | cons o r ih =>
    rw [List.cons_append, lastCurve?_cons, ih, lastCurve?_cons]


theorem lastThreshold?_finalOps (ops : List KneeOp) :
    lastThreshold? (kneeFinalOps ops) = lastThreshold? ops := by
  have hnR : lastThreshold? (optOps KneeOp.setRatio (lastRatio? ops)) = none := by
    cases lastRatio? ops <;> rfl
  have hnW : lastThreshold? (optOps KneeOp.setKneeW (lastKneeW? ops)) = none := by
    cases lastKneeW? ops <;> rfl
  have hnC : lastThreshold? (optOps KneeOp.setCurve (lastCurve? ops)) = none := by
    cases lastCurve? ops <;> rfl
  rw [kneeFinalOps, lastThreshold?_append_none _ _ hnC,
    lastThreshold?_append_none _ _ hnW, lastThreshold?_append_none _ _ hnR]
  cases h : lastThreshold? ops <;> rfl

theorem lastRatio?_finalOps (ops : List KneeOp) :
    lastRatio? (kneeFinalOps ops) = lastRatio? ops := by
  have hnT : lastRatio? (optOps KneeOp.setThreshold (lastThreshold? ops)) = none := by
    cases lastThreshold? ops <;> rfl
  have hnW : lastRatio? (optOps KneeOp.setKneeW (lastKneeW? ops)) = none := by
    cases lastKneeW? ops <;> rfl
  have hnC : lastRatio? (optOps KneeOp.setCurve (lastCurve? ops)) = none := by
    cases lastCurve? ops <;> rfl
  have hzero : lastRatio? (optOps KneeOp.setRatio (none : Option ℚ)) = none := rfl
  rw [kneeFinalOps, lastRatio?_append_none _ _ hnC, lastRatio?_append_none _ _ hnW]
  cases h : lastRatio? ops with
  | some v => exact lastRatio?_append_some _ _ v rfl
  | none =>
    rw [lastRatio?_append_none _ _ hzero]
    exact hnT

theorem lastKneeW?_finalOps (ops : List KneeOp) :
    lastKneeW? (kneeFinalOps ops) = lastKneeW? ops := by
  have hnT : lastKneeW? (optOps KneeOp.setThreshold (lastThreshold? ops)) = none := by
    cases lastThreshold? ops <;> rfl
  have hnR : lastKneeW? (optOps KneeOp.setRatio (lastRatio? ops)) = none := by
    cases lastRatio? ops <;> rfl
  have hnC : lastKneeW? (optOps KneeOp.setCurve (lastCurve? ops)) = none := by
    cases lastCurve? ops <;> rfl
  have hzero : lastKneeW? (optOps KneeOp.setKneeW (none : Option ℚ)) = none := rfl
  rw [kneeFinalOps, lastKneeW?_append_none _ _ hnC]
  cases h : lastKneeW? ops with
  | some v => exact lastKneeW?_append_some _ _ v rfl
  | none =>
    rw [lastKneeW?_append_none _ _ hzero, lastKneeW?_append_none _ _ hnR]
    exact hnT

theorem lastCurve?_finalOps (ops : List KneeOp) :
    lastCurve? (kneeFinalOps ops) = lastCurve? ops := by
  have hnT : lastCurve? (optOps KneeOp.setThreshold (lastThreshold? ops)) = none := by
    cases lastThreshold? ops <;> rfl
  have hnR : lastCurve? (optOps KneeOp.setRatio (lastRatio? ops)) = none := by
    cases lastRatio? ops <;> rfl
  have hnW : lastCurve? (optOps KneeOp.setKneeW (lastKneeW? ops)) = none := by
    cases lastKneeW? ops <;> rfl
  have hzero : lastCurve? (optOps KneeOp.setCurve (none : Option ℚ)) = none := rfl
  rw [kneeFinalOps]
  cases h : lastCurve? ops with
  | some v => exact lastCurve?_append_some _ _ v rfl
  | none =>
    rw [lastCurve?_append_none _ _ hzero, lastCurve?_append_none _ _ hnW,
      lastCurve?_append_none _ _ hnR]
    exact hnT

/-- A nonempty setter sequence has a nonempty final-values sequence. -/
theorem kneeFinalOps_ne_nil (ops : List KneeOp) (h : ops ≠ []) :
    kneeFinalOps ops ≠ [] := by
  cases ops with
  | nil => exact absurd rfl h
  | cons o rest =>
    cases o with
    | setThreshold v =>
      obtain ⟨w, hw⟩ := Option.isSome_iff_exists.mp (show
          (lastThreshold? (KneeOp.setThreshold v :: rest)).isSome by
        rw [lastThreshold?_cons]; cases lastThreshold? rest <;> rfl)
      simp [kneeFinalOps, hw, optOps]
    | setRatio v =>
      obtain ⟨w, hw⟩ := Option.isSome_iff_exists.mp (show
          (lastRatio? (KneeOp.setRatio v :: rest)).isSome by
        rw [lastRatio?_cons]; cases lastRatio? rest <;> rfl)
      simp [kneeFinalOps, hw, optOps]
    | setKneeW v =>
      obtain ⟨w, hw⟩ := Option.isSome_iff_exists.mp (show
          (lastKneeW? (KneeOp.setKneeW v :: rest)).isSome by
        rw [lastKneeW?_cons]; cases lastKneeW? rest <;> rfl)
      simp [kneeFinalOps, hw, optOps]
    | setCurve v =>
      obtain ⟨w, hw⟩ := Option.isSome_iff_exists.mp (show
          (lastCurve? (KneeOp.setCurve v :: rest)).isSome by
        rw [lastCurve?_cons]; cases lastCurve? rest <;> rfl)
      simp [kneeFinalOps, hw, optOps]

/-- Coalescing for the knee engine: a nonempty setter sequence drives the
computer to exactly the state reached by issuing only the final values. -/
theorem knee_coalesce (ops : List KneeOp) (k : KneeComputer) (h : ops ≠ []) :
    k.applyOps ops = k.applyOps (kneeFinalOps ops) := by
  have hfin : kneeFinalOps ops ≠ [] := kneeFinalOps_ne_nil ops h
  apply KneeComputer.ext
  · rw [applyOps_threshold, applyOps_threshold, lastThreshold?_finalOps]
  · rw [applyOps_ratio, applyOps_ratio, lastRatio?_finalOps]
  · rw [applyOps_knee_w, applyOps_knee_w, lastKneeW?_finalOps]
  · rw [applyOps_curve, applyOps_curve, lastCurve?_finalOps]
  · exact ((applyOps_keeps ops k).1).trans
      ((applyOps_keeps (kneeFinalOps ops) k).1).symm
  · exact ((applyOps_keeps ops k).2.1).trans
      ((applyOps_keeps (kneeFinalOps ops) k).2.1).symm
  · exact ((applyOps_keeps ops k).2.2.1).trans
      ((applyOps_keeps (kneeFinalOps ops) k).2.2.1).symm
  · exact ((applyOps_keeps ops k).2.2.2).trans
      ((applyOps_keeps (kneeFinalOps ops) k).2.2.2).symm
  · rw [applyOps_flag_of_ne ops h, applyOps_flag_of_ne _ hfin]

end compressor

end zldsp

namespace zldsp

namespace filter

theorem ideal_applyOps_nil (s : Ideal) : s.applyOps [] = s := rfl

theorem ideal_applyOps_cons (s : Ideal) (o : FilterOp) (rest : List FilterOp) :
    s.applyOps (o :: rest) = (s.applyOp o).applyOps rest := rfl

theorem lastFs?_cons (o : FilterOp) (rest : List FilterOp) :
    lastFs? (o :: rest) = (lastFs? rest).elim (filterFsArg o) some := rfl

theorem lastFreq?_cons (o : FilterOp) (rest : List FilterOp) :
    lastFreq? (o :: rest) = (lastFreq? rest).elim (filterFreqArg o) some := rfl

theorem lastGain?_cons (o : FilterOp) (rest : List FilterOp) :
    lastGain? (o :: rest) = (lastGain? rest).elim (filterGainArg o) some := rfl

theorem lastQ?_cons (o : FilterOp) (rest : List FilterOp) :
    lastQ? (o :: rest) = (lastQ? rest).elim (filterQArg o) some := rfl

theorem lastType?_cons (o : FilterOp) (rest : List FilterOp) :
    lastType? (o :: rest) = (lastType? rest).elim (filterTypeArg o) some := rfl

theorem lastOrder?_cons (o : FilterOp) (rest : List FilterOp) :
    lastOrder? (o :: rest) = (lastOrder? rest).elim (filterOrderArg o) some := rfl

/-- Stored `fs` after a setter sequence: the last issued value, else
the initial one. -/
theorem ideal_applyOps_fs (ops : List FilterOp) :
    ∀ s : Ideal, (s.applyOps ops).fs = (lastFs? ops).getD s.fs := by
  induction ops with
  | nil => intro s; rfl
  | cons o rest ih =>
    intro s
    rw [ideal_applyOps_cons, ih, lastFs?_cons]
    cases hrest : lastFs? rest with
    | some v => rfl
    | none =>
      cases o <;>
        simp [filterFsArg, Ideal.applyOp, Ideal.prepare, Ideal.setFreq, Ideal.setGain,
        Ideal.setQ, Ideal.setFilterType, Ideal.setOrder,
          apply_ite (Ideal.fs), ite_self]

/-- Stored `freq` after a setter sequence: the last issued value, else
the initial one. -/
theorem ideal_applyOps_freq (ops : List FilterOp) :
    ∀ s : Ideal, (s.applyOps ops).freq = (lastFreq? ops).getD s.freq := by
  induction ops with
  | nil => intro s; rfl
  | cons o rest ih =>
    intro s
    rw [ideal_applyOps_cons, ih, lastFreq?_cons]
    cases hrest : lastFreq? rest with
    | some v => rfl
    | none =>
      cases o <;>
        simp [filterFreqArg, Ideal.applyOp, Ideal.prepare, Ideal.setFreq, Ideal.setGain,
        Ideal.setQ, Ideal.setFilterType, Ideal.setOrder,
          apply_ite (Ideal.freq), ite_self]

/-- Stored `filter_type` after a setter sequence: the last issued value, else
the initial one. -/
theorem ideal_applyOps_filter_type (ops : List FilterOp) :
    ∀ s : Ideal, (s.applyOps ops).filter_type = (lastType? ops).getD s.filter_type := by
  induction ops with
  | nil => intro s; rfl
  | cons o rest ih =>
    intro s
    rw [ideal_applyOps_cons, ih, lastType?_cons]
    cases hrest : lastType? rest with
    | some v => rfl
    | none =>
      cases o <;>
        simp [filterTypeArg, Ideal.applyOp, Ideal.prepare, Ideal.setFreq, Ideal.setGain,
        Ideal.setQ, Ideal.setFilterType, Ideal.setOrder,
          apply_ite (Ideal.filter_type), ite_self]

/-- Stored `order` after a setter sequence: the last issued value, else
the initial one. -/
theorem ideal_applyOps_order (ops : List FilterOp) :
    ∀ s : Ideal, (s.applyOps ops).order = (lastOrder? ops).getD s.order := by
  induction ops with
  | nil => intro s; rfl
  | cons o rest ih =>
    intro s
    rw [ideal_applyOps_cons, ih, lastOrder?_cons]
    cases hrest : lastOrder? rest with
    | some v => rfl
    | none =>
      cases o <;>
        simp [filterOrderArg, Ideal.applyOp, Ideal.prepare, Ideal.setFreq, Ideal.setGain,
        Ideal.setQ, Ideal.setFilterType, Ideal.setOrder,
          apply_ite (Ideal.order), ite_self]

/-- Stored `gain` after a setter sequence none of whose gain/Q writes is
epsilon-suppressed: the last issued value, else the initial one. -/
theorem ideal_applyOps_gain (ops : List FilterOp) :
    ∀ s : Ideal, s.noSuppress ops →
      (s.applyOps ops).gain = (lastGain? ops).getD s.gain := by
  induction ops with
  | nil => intro s _; rfl
  | cons o rest ih =>
    intro s hs
    obtain ⟨h1, h2⟩ := hs
    rw [ideal_applyOps_cons, ih _ h2, lastGain?_cons]
    cases hrest : lastGain? rest with
    | some v => rfl
    | none =>
      cases o <;>
        simp_all [filterGainArg, Ideal.applyOp, Ideal.prepare, Ideal.setFreq, Ideal.setGain,
        Ideal.setQ, Ideal.setFilterType, Ideal.setOrder,
          apply_ite (Ideal.gain), ite_self]

/-- Stored `q` after a setter sequence none of whose gain/Q writes is
epsilon-suppressed: the last issued value, else the initial one. -/
theorem ideal_applyOps_q (ops : List FilterOp) :
    ∀ s : Ideal, s.noSuppress ops →
      (s.applyOps ops).q = (lastQ? ops).getD s.q := by
  induction ops with
  | nil => intro s _; rfl
  | cons o rest ih =>
    intro s hs
    obtain ⟨h1, h2⟩ := hs
    rw [ideal_applyOps_cons, ih _ h2, lastQ?_cons]
    cases hrest : lastQ? rest with
    | some v => rfl
    | none =>
      cases o <;>
        simp_all [filterQArg, Ideal.applyOp, Ideal.prepare, Ideal.setFreq, Ideal.setGain,
        Ideal.setQ, Ideal.setFilterType, Ideal.setOrder,
          apply_ite (Ideal.q), ite_self]

/-- Setter sequences never touch the coefficient cascade, the section
count, or the output buffers. -/
theorem ideal_applyOp_keeps (s : Ideal) (o : FilterOp) :
    (s.applyOp o).coeffs = s.coeffs
    ∧ (s.applyOp o).current_filter_num = s.current_filter_num
    ∧ (s.applyOp o).dbs = s.dbs
    ∧ (s.applyOp o).gains = s.gains
    ∧ (s.applyOp o).response = s.response := by
  cases o <;>
    refine ⟨?_, ?_, ?_, ?_, ?_⟩ <;>
    simp [Ideal.applyOp, Ideal.prepare, Ideal.setFreq, Ideal.setGain,
        Ideal.setQ, Ideal.setFilterType, Ideal.setOrder,
      apply_ite (Ideal.coeffs), apply_ite (Ideal.current_filter_num),
      apply_ite (Ideal.dbs), apply_ite (Ideal.gains),
      apply_ite (Ideal.response), ite_self]

theorem ideal_applyOps_keeps (ops : List FilterOp) :
    ∀ s : Ideal,
      (s.applyOps ops).coeffs = s.coeffs
      ∧ (s.applyOps ops).current_filter_num = s.current_filter_num
      ∧ (s.applyOps ops).dbs = s.dbs
      ∧ (s.applyOps ops).gains = s.gains
      ∧ (s.applyOps ops).response = s.response := by
  induction ops with
  | nil => exact fun s => ⟨rfl, rfl, rfl, rfl, rfl⟩
  | cons o rest ih =>
    intro s
    rw [ideal_applyOps_cons]
    obtain ⟨i1, i2, i3, i4, i5⟩ := ih (s.applyOp o)
    obtain ⟨j1, j2, j3, j4, j5⟩ := ideal_applyOp_keeps s o
    exact ⟨i1.trans j1, i2.trans j2, i3.trans j3, i4.trans j4, i5.trans j5⟩

/-- Every setter either raises the dirty flag or leaves the state
untouched (the epsilon-suppressed case). -/
theorem ideal_applyOp_flag_or (s : Ideal) (o : FilterOp) :
    (s.applyOp o).to_update_para = true ∨ s.applyOp o = s := by
  cases o with
  | setGain v =>
    by_cases hc : 1/1000000 < |v - s.gain|
    · refine Or.inl ?_
      show (s.setGain v).to_update_para = true
      unfold Ideal.setGain
      rw [if_pos hc]
    · refine Or.inr ?_
      show s.setGain v = s
      unfold Ideal.setGain
      rw [if_neg hc]
  | setQ v =>
    by_cases hc : 1/1000000 < |v - s.q|
    · refine Or.inl ?_
      show (s.setQ v).to_update_para = true
      unfold Ideal.setQ
      rw [if_pos hc]
    · refine Or.inr ?_
      show s.setQ v = s
      unfold Ideal.setQ
      rw [if_neg hc]
  | prepare v => exact Or.inl rfl
  | setFreq v => exact Or.inl rfl
  | setFilterType v => exact Or.inl rfl
  | setOrder v => exact Or.inl rfl

theorem ideal_applyOps_flag_or (ops : List FilterOp) :
    ∀ s : Ideal,
      (s.applyOps ops).to_update_para = true ∨ s.applyOps ops = s := by
  induction ops with
  | nil => exact fun s => Or.inr rfl
  | cons o rest ih =>
    intro s
    rw [ideal_applyOps_cons]
    rcases ih (s.applyOp o) with h | h
    · exact Or.inl h
    · rcases ideal_applyOp_flag_or s o with h1 | h1
      · exact Or.inl (by rw [h]; exact h1)
      · exact Or.inr (by rw [h]; exact h1)

/-- A nonempty, nowhere-suppressed setter sequence leaves the dirty flag
raised. -/
theorem ideal_applyOps_flag (ops : List FilterOp) (h : ops ≠ []) :
    ∀ s : Ideal, s.noSuppress ops → (s.applyOps ops).to_update_para = true := by
  cases ops with
  | nil => exact absurd rfl h
  | cons o rest =>
    intro s hs
    obtain ⟨h1, h2⟩ := hs
    have hofl : (s.applyOp o).to_update_para = true := by
      cases o <;> simp_all [Ideal.applyOp, Ideal.prepare, Ideal.setFreq, Ideal.setGain,
        Ideal.setQ, Ideal.setFilterType, Ideal.setOrder]
    rw [ideal_applyOps_cons]
    rcases ideal_applyOps_flag_or rest (s.applyOp o) with hf | hf
    · exact hf
    · rw [hf]; exact hofl

theorem lastFs?_append_some (l1 l2 : List FilterOp) (v : ℚ)
    (h : lastFs? l2 = some v) : lastFs? (l1 ++ l2) = some v := by
  induction l1 with
  | nil => exact h
  | cons o r ih =>
    rw [List.cons_append, lastFs?_cons, ih]
    rfl

theorem lastFs?_append_none (l1 l2 : List FilterOp)
    (h : lastFs? l2 = none) : lastFs? (l1 ++ l2) = lastFs? l1 := by
  induction l1 with
  | nil => exact h
  | cons o r ih =>
    rw [List.cons_append, lastFs?_cons, ih, lastFs?_cons]

theorem lastFreq?_append_some (l1 l2 : List FilterOp) (v : ℚ)
    (h : lastFreq? l2 = some v) : lastFreq? (l1 ++ l2) = some v := by
  induction l1 with
  | nil => exact h
  | cons o r ih =>
    rw [List.cons_append, lastFreq?_cons, ih]
    rfl

theorem lastFreq?_append_none (l1 l2 : List FilterOp)
    (h : lastFreq? l2 = none) : lastFreq? (l1 ++ l2) = lastFreq? l1 := by
  induction l1 with
  | nil => exact h
  | cons o r ih =>
    rw [List.cons_append, lastFreq?_cons, ih, lastFreq?_cons]

theorem lastGain?_append_some (l1 l2 : List FilterOp) (v : ℚ)
    (h : lastGain? l2 = some v) : lastGain? (l1 ++ l2) = some v := by
  induction l1 with
  | nil => exact h
  | cons o r ih =>
    rw [List.cons_append, lastGain?_cons, ih]
    rfl

theorem lastGain?_append_none (l1 l2 : List FilterOp)
    (h : lastGain? l2 = none) : lastGain? (l1 ++ l2) = lastGain? l1 := by
  induction l1 with
  | nil => exact h
  | cons o r ih =>
    rw [List.cons_append, lastGain?_cons, ih, lastGain?_cons]

theorem lastQ?_append_some (l1 l2 : List FilterOp) (v : ℚ)
    (h : lastQ? l2 = some v) : lastQ? (l1 ++ l2) = some v := by
  induction l1 with
  | nil => exact h
  | cons o r ih =>
    rw [List.cons_append, lastQ?_cons, ih]
    rfl

theorem lastQ?_append_none (l1 l2 : List FilterOp)
    (h : lastQ? l2 = none) : lastQ? (l1 ++ l2) = lastQ? l1 := by
  induction l1 with
  | nil => exact h
  | cons o r ih =>
    rw [List.cons_append, lastQ?_cons, ih, lastQ?_cons]

theorem lastType?_append_some (l1 l2 : List FilterOp) (v : FilterType)
    (h : lastType? l2 = some v) : lastType? (l1 ++ l2) = some v := by
  induction l1 with
  | nil => exact h
  | cons o r ih =>
    rw [List.cons_append, lastType?_cons, ih]
    rfl

theorem lastType?_append_none (l1 l2 : List FilterOp)
    (h : lastType? l2 = none) : lastType? (l1 ++ l2) = lastType? l1 := by
  induction l1 with
  | nil => exact h
  | cons o r ih =>
    rw [List.cons_append, lastType?_cons, ih, lastType?_cons]

theorem lastOrder?_append_some (l1 l2 : List FilterOp) (v : ℕ)
    (h : lastOrder? l2 = some v) : lastOrder? (l1 ++ l2) = some v := by
  induction l1 with
  | nil => exact h
  | cons o r ih =>
    rw [List.cons_append, lastOrder?_cons, ih]
    rfl

theorem lastOrder?_append_none (l1 l2 : List FilterOp)
    (h : lastOrder? l2 = none) : lastOrder? (l1 ++ l2) = lastOrder? l1 := by
  induction l1 with
  | nil => exact h
  | cons o r ih =>
    rw [List.cons_append, lastOrder?_cons, ih, lastOrder?_cons]

theorem lastFs?_finalOps (ops : List FilterOp) :
    lastFs? (filterFinalOps ops) = lastFs? ops := by
  have hnFreq : lastFs? (optFOps FilterOp.setFreq (lastFreq? ops)) = none := by
    cases lastFreq? ops <;> rfl
  have hnGain : lastFs? (optFOps FilterOp.setGain (lastGain? ops)) = none := by
    cases lastGain? ops <;> rfl
  have hnQ : lastFs? (optFOps FilterOp.setQ (lastQ? ops)) = none := by
    cases lastQ? ops <;> rfl
  have hnType : lastFs? (optFOps FilterOp.setFilterType (lastType? ops)) = none := by
    cases lastType? ops <;> rfl
  have hnOrder : lastFs? (optFOps FilterOp.setOrder (lastOrder? ops)) = none := by
    cases lastOrder? ops <;> rfl
  have hzero : lastFs? (optFOps FilterOp.prepare (none : Option ℚ)) = none := rfl
  rw [filterFinalOps]
  rw [lastFs?_append_none _ _ hnOrder]
  rw [lastFs?_append_none _ _ hnType]
  rw [lastFs?_append_none _ _ hnQ]
  rw [lastFs?_append_none _ _ hnGain]
  rw [lastFs?_append_none _ _ hnFreq]
  cases h : lastFs? ops <;> rfl

theorem lastFreq?_finalOps (ops : List FilterOp) :
    lastFreq? (filterFinalOps ops) = lastFreq? ops := by
  have hnFs : lastFreq? (optFOps FilterOp.prepare (lastFs? ops)) = none := by
    cases lastFs? ops <;> rfl
  have hnGain : lastFreq? (optFOps FilterOp.setGain (lastGain? ops)) = none := by
    cases lastGain? ops <;> rfl
  have hnQ : lastFreq? (optFOps FilterOp.setQ (lastQ? ops)) = none := by
    cases lastQ? ops <;> rfl
  have hnType : lastFreq? (optFOps FilterOp.setFilterType (lastType? ops)) = none := by
    cases lastType? ops <;> rfl
  have hnOrder : lastFreq? (optFOps FilterOp.setOrder (lastOrder? ops)) = none := by
    cases lastOrder? ops <;> rfl
  have hzero : lastFreq? (optFOps FilterOp.setFreq (none : Option ℚ)) = none := rfl
  rw [filterFinalOps]
  rw [lastFreq?_append_none _ _ hnOrder]
  rw [lastFreq?_append_none _ _ hnType]
  rw [lastFreq?_append_none _ _ hnQ]
  rw [lastFreq?_append_none _ _ hnGain]
  cases h : lastFreq? ops with
  | some v => exact lastFreq?_append_some _ _ v rfl
  | none =>
    rw [lastFreq?_append_none _ _ hzero]
    exact hnFs

theorem lastGain?_finalOps (ops : List FilterOp) :
    lastGain? (filterFinalOps ops) = lastGain? ops := by
  have hnFs : lastGain? (optFOps FilterOp.prepare (lastFs? ops)) = none := by
    cases lastFs? ops <;> rfl
  have hnFreq : lastGain? (optFOps FilterOp.setFreq (lastFreq? ops)) = none := by
    cases lastFreq? ops <;> rfl
  have hnQ : lastGain? (optFOps FilterOp.setQ (lastQ? ops)) = none := by
    cases lastQ? ops <;> rfl
  have hnType : lastGain? (optFOps FilterOp.setFilterType (lastType? ops)) = none := by
    cases lastType? ops <;> rfl
  have hnOrder : lastGain? (optFOps FilterOp.setOrder (lastOrder? ops)) = none := by
    cases lastOrder? ops <;> rfl
  have hzero : lastGain? (optFOps FilterOp.setGain (none : Option ℚ)) = none := rfl
  rw [filterFinalOps]
  rw [lastGain?_append_none _ _ hnOrder]
  rw [lastGain?_append_none _ _ hnType]
  rw [lastGain?_append_none _ _ hnQ]
  cases h : lastGain? ops with
  | some v => exact lastGain?_append_some _ _ v rfl
  | none =>
    rw [lastGain?_append_none _ _ hzero]
    rw [lastGain?_append_none _ _ hnFreq]
    exact hnFs

theorem lastQ?_finalOps (ops : List FilterOp) :
    lastQ? (filterFinalOps ops) = lastQ? ops := by
  have hnFs : lastQ? (optFOps FilterOp.prepare (lastFs? ops)) = none := by
    cases lastFs? ops <;> rfl
  have hnFreq : lastQ? (optFOps FilterOp.setFreq (lastFreq? ops)) = none := by
    cases lastFreq? ops <;> rfl
  have hnGain : lastQ? (optFOps FilterOp.setGain (lastGain? ops)) = none := by
    cases lastGain? ops <;> rfl
  have hnType : lastQ? (optFOps FilterOp.setFilterType (lastType? ops)) = none := by
    cases lastType? ops <;> rfl
  have hnOrder : lastQ? (optFOps FilterOp.setOrder (lastOrder? ops)) = none := by
    cases lastOrder? ops <;> rfl
  have hzero : lastQ? (optFOps FilterOp.setQ (none : Option ℚ)) = none := rfl
  rw [filterFinalOps]
  rw [lastQ?_append_none _ _ hnOrder]
  rw [lastQ?_append_none _ _ hnType]
  cases h : lastQ? ops with
  | some v => exact lastQ?_append_some _ _ v rfl
  | none =>
    rw [lastQ?_append_none _ _ hzero]
    rw [lastQ?_append_none _ _ hnGain]
    rw [lastQ?_append_none _ _ hnFreq]
    exact hnFs

theorem lastType?_finalOps (ops : List FilterOp) :
    lastType? (filterFinalOps ops) = lastType? ops := by
  have hnFs : lastType? (optFOps FilterOp.prepare (lastFs? ops)) = none := by
    cases lastFs? ops <;> rfl
  have hnFreq : lastType? (optFOps FilterOp.setFreq (lastFreq? ops)) = none := by
    cases lastFreq? ops <;> rfl
  have hnGain : lastType? (optFOps FilterOp.setGain (lastGain? ops)) = none := by
    cases lastGain? ops <;> rfl
  have hnQ : lastType? (optFOps FilterOp.setQ (lastQ? ops)) = none := by
    cases lastQ? ops <;> rfl
  have hnOrder : lastType? (optFOps FilterOp.setOrder (lastOrder? ops)) = none := by
    cases lastOrder? ops <;> rfl
  have hzero : lastType? (optFOps FilterOp.setFilterType (none : Option FilterType)) = none := rfl
  rw [filterFinalOps]
  rw [lastType?_append_none _ _ hnOrder]
  cases h : lastType? ops with
  | some v => exact lastType?_append_some _ _ v rfl
  | none =>
    rw [lastType?_append_none _ _ hzero]
    rw [lastType?_append_none _ _ hnQ]
    rw [lastType?_append_none _ _ hnGain]
    rw [lastType?_append_none _ _ hnFreq]
    exact hnFs

theorem lastOrder?_finalOps (ops : List FilterOp) :
    lastOrder? (filterFinalOps ops) = lastOrder? ops := by
  have hnFs : lastOrder? (optFOps FilterOp.prepare (lastFs? ops)) = none := by
    cases lastFs? ops <;> rfl
  have hnFreq : lastOrder? (optFOps FilterOp.setFreq (lastFreq? ops)) = none := by
    cases lastFreq? ops <;> rfl
  have hnGain : lastOrder? (optFOps FilterOp.setGain (lastGain? ops)) = none := by
    cases lastGain? ops <;> rfl
  have hnQ : lastOrder? (optFOps FilterOp.setQ (lastQ? ops)) = none := by
    cases lastQ? ops <;> rfl
  have hnType : lastOrder? (optFOps FilterOp.setFilterType (lastType? ops)) = none := by
    cases lastType? ops <;> rfl
  have hzero : lastOrder? (optFOps FilterOp.setOrder (none : Option ℕ)) = none := rfl
  rw [filterFinalOps]
  cases h : lastOrder? ops with
  | some v => exact lastOrder?_append_some _ _ v rfl
  | none =>
    rw [lastOrder?_append_none _ _ hzero]
    rw [lastOrder?_append_none _ _ hnType]
    rw [lastOrder?_append_none _ _ hnQ]
    rw [lastOrder?_append_none _ _ hnGain]
    rw [lastOrder?_append_none _ _ hnFreq]
    exact hnFs

/-- A nonempty setter sequence has a nonempty final-values sequence. -/
theorem filterFinalOps_ne_nil (ops : List FilterOp) (h : ops ≠ []) :
    filterFinalOps ops ≠ [] := by
  cases ops with
  | nil => exact absurd rfl h
  | cons o rest =>
    cases o with
    | prepare v =>
      obtain ⟨w, hw⟩ := Option.isSome_iff_exists.mp (show
          (lastFs? (FilterOp.prepare v :: rest)).isSome by
        rw [lastFs?_cons]; cases lastFs? rest <;> rfl)
      simp [filterFinalOps, hw, optFOps]
    | setFreq v =>
      obtain ⟨w, hw⟩ := Option.isSome_iff_exists.mp (show
          (lastFreq? (FilterOp.setFreq v :: rest)).isSome by
        rw [lastFreq?_cons]; cases lastFreq? rest <;> rfl)
      simp [filterFinalOps, hw, optFOps]
    | setGain v =>
      obtain ⟨w, hw⟩ := Option.isSome_iff_exists.mp (show
          (lastGain? (FilterOp.setGain v :: rest)).isSome by
        rw [lastGain?_cons]; cases lastGain? rest <;> rfl)
      simp [filterFinalOps, hw, optFOps]
    | setQ v =>
      obtain ⟨w, hw⟩ := Option.isSome_iff_exists.mp (show
          (lastQ? (FilterOp.setQ v :: rest)).isSome by
        rw [lastQ?_cons]; cases lastQ? rest <;> rfl)
      simp [filterFinalOps, hw, optFOps]
    | setFilterType v =>
      obtain ⟨w, hw⟩ := Option.isSome_iff_exists.mp (show
          (lastType? (FilterOp.setFilterType v :: rest)).isSome by
        rw [lastType?_cons]; cases lastType? rest <;> rfl)
      simp [filterFinalOps, hw, optFOps]
    | setOrder v =>
      obtain ⟨w, hw⟩ := Option.isSome_iff_exists.mp (show
          (lastOrder? (FilterOp.setOrder v :: rest)).isSome by
        rw [lastOrder?_cons]; cases lastOrder? rest <;> rfl)
      simp [filterFinalOps, hw, optFOps]

/-- Coalescing for the filter engine: when no gain/Q write is suppressed
in either run, a nonempty setter sequence drives the engine to exactly the
state reached by issuing only the final values. -/
theorem ideal_coalesce (ops : List FilterOp) (s : Ideal) (h : ops ≠ [])
    (hs1 : s.noSuppress ops) (hs2 : s.noSuppress (filterFinalOps ops)) :
    s.applyOps ops = s.applyOps (filterFinalOps ops) := by
  have hfin : filterFinalOps ops ≠ [] := filterFinalOps_ne_nil ops h
  apply Ideal.ext
  · exact ((ideal_applyOps_keeps ops s).1).trans
      ((ideal_applyOps_keeps (filterFinalOps ops) s).1).symm
  · rw [ideal_applyOps_flag ops h s hs1,
      ideal_applyOps_flag (filterFinalOps ops) hfin s hs2]
  · rw [ideal_applyOps_order, ideal_applyOps_order, lastOrder?_finalOps]
  · exact ((ideal_applyOps_keeps ops s).2.1).trans
      ((ideal_applyOps_keeps (filterFinalOps ops) s).2.1).symm
  · rw [ideal_applyOps_freq, ideal_applyOps_freq, lastFreq?_finalOps]
  · rw [ideal_applyOps_gain ops s hs1,
      ideal_applyOps_gain (filterFinalOps ops) s hs2, lastGain?_finalOps]
  · rw [ideal_applyOps_q ops s hs1,
      ideal_applyOps_q (filterFinalOps ops) s hs2, lastQ?_finalOps]
  · rw [ideal_applyOps_fs, ideal_applyOps_fs, lastFs?_finalOps]
  · rw [ideal_applyOps_filter_type, ideal_applyOps_filter_type, lastType?_finalOps]
  · exact ((ideal_applyOps_keeps ops s).2.2.1).trans
      ((ideal_applyOps_keeps (filterFinalOps ops) s).2.2.1).symm
  · exact ((ideal_applyOps_keeps ops s).2.2.2.1).trans
      ((ideal_applyOps_keeps (filterFinalOps ops) s).2.2.2.1).symm
  · exact ((ideal_applyOps_keeps ops s).2.2.2.2).trans
      ((ideal_applyOps_keeps (filterFinalOps ops) s).2.2.2.2).symm

end filter

end zldsp

namespace zldsp

/-- C3 (amended): issuing N > 1 setter calls before one pull is equivalent
to issuing only the final value of each touched parameter — for the knee
engine unconditionally, and for the filter engine provided no gain/Q write
in either run is suppressed by the 1e-6 epsilon rule. -/
theorem C3_setter_coalescing :
    (∀ (k : compressor.KneeComputer) (ops : List compressor.KneeOp),
        1 < ops.length →
        (k.applyOps ops).prepareBuffer =
          (k.applyOps (compressor.kneeFinalOps ops)).prepareBuffer)
    ∧ (∀ (tbl : filter.DesignTable) (mag : filter.MagFn) (ws : List ℚ)
        (s : filter.Ideal) (ops : List filter.FilterOp),
        1 < ops.length → s.noSuppress ops →
        s.noSuppress (filter.filterFinalOps ops) →
        filter.Ideal.updateMagnitude tbl mag ws (s.applyOps ops) =
          filter.Ideal.updateMagnitude tbl mag ws
            (s.applyOps (filter.filterFinalOps ops))) := by
  constructor
  · intro k ops hlen
    rw [compressor.knee_coalesce ops k
      (by intro he; rw [he] at hlen; simp at hlen)]
  · intro tbl mag ws s ops hlen hs1 hs2
    rw [filter.ideal_coalesce ops s
      (by intro he; rw [he] at hlen; simp at hlen) hs1 hs2]

/-- C3 witness: two knee setter calls (then pull) match issuing only their
final values, and likewise two unsuppressed filter setter calls. -/
theorem C3_setter_coalescing_witness :
    ((compressor.KneeComputer.init.applyOps
        [.setRatio 3, .setThreshold (-20)]).prepareBuffer =
      (compressor.KneeComputer.init.applyOps
        (compressor.kneeFinalOps [.setRatio 3, .setThreshold (-20)])).prepareBuffer)
    ∧ (filter.Ideal.updateMagnitude (fun _ _ _ _ _ _ => ([], 0))
          (fun _ _ => (1:ℝ)) []
          (filter.Ideal.init.applyOps [.setGain 2, .setFreq 500]) =
        filter.Ideal.updateMagnitude (fun _ _ _ _ _ _ => ([], 0))
          (fun _ _ => (1:ℝ)) []
          (filter.Ideal.init.applyOps
            (filter.filterFinalOps [.setGain 2, .setFreq 500]))) := by
  constructor
  · exact C3_setter_coalescing.1 _ _ (by simp)
  · refine C3_setter_coalescing.2 _ _ _ _ _ (by simp) ?_ ?_
    · exact ⟨by norm_num [filter.Ideal.init], trivial, trivial⟩
    · exact ⟨trivial, by norm_num [filter.Ideal.init, filter.Ideal.applyOp,
        filter.Ideal.setFreq], trivial⟩

/-- C3 counterexample: from the fresh filter engine, the sequence
`setGain 2; setGain (2 + 1e-7)` (the second write suppressed by the 1e-6
epsilon) followed by a pull yields the cascade designed for gain 2, while
issuing only the final value `2 + 1e-7` yields the cascade designed for
gain `2 + 1e-7` — different model states, so the claim as stated fails on
the filter engine. -/
theorem C3_setter_coalescing_counterexample :
    (filter.Ideal.updateMagnitude (fun _ _ _ _ g _ => ([[g]], 1))
        (fun _ _ => (1:ℝ)) []
        (filter.Ideal.init.applyOps
          [.setGain 2, .setGain (2 + 1/10^7)])).1.coeffs ≠
      (filter.Ideal.updateMagnitude (fun _ _ _ _ g _ => ([[g]], 1))
        (fun _ _ => (1:ℝ)) []
        (filter.Ideal.init.applyOps
          (filter.filterFinalOps [.setGain 2, .setGain (2 + 1/10^7)]))).1.coeffs := by
  have hfo : filter.filterFinalOps
      [.setGain 2, .setGain (2 + 1/10^7)] = [.setGain (2 + 1/10^7)] := rfl
  have ha : filter.Ideal.init.setGain 2 =
      { filter.Ideal.init with gain := 2, to_update_para := true } := by
    unfold filter.Ideal.setGain
    rw [if_pos (show (1:ℚ)/1000000 < |2 - filter.Ideal.init.gain| by
      norm_num [filter.Ideal.init])]
  have hb : ({ filter.Ideal.init with gain := 2, to_update_para := true
      } : filter.Ideal).setGain (2 + 1/10^7) =
      { filter.Ideal.init with gain := 2, to_update_para := true } := by
    unfold filter.Ideal.setGain
    rw [if_neg]
    show ¬ (1:ℚ)/1000000 < |2 + 1/10^7 - 2|
    rw [not_lt, abs_le]
    norm_num
  have hc : filter.Ideal.init.setGain (2 + 1/10^7) =
      { filter.Ideal.init with gain := 2 + 1/10^7, to_update_para := true } := by
    have hval : (2 + 1/10^7 - filter.Ideal.init.gain : ℚ) = 20000001/10000000 := by
      norm_num [filter.Ideal.init]
    have hcond : (1:ℚ)/1000000 < |2 + 1/10^7 - filter.Ideal.init.gain| := by
      rw [hval, abs_of_pos (by norm_num)]
      norm_num
    unfold filter.Ideal.setGain
    rw [if_pos hcond]
  have h1 : filter.Ideal.init.applyOps [.setGain 2, .setGain (2 + 1/10^7)] =
      { filter.Ideal.init with gain := 2, to_update_para := true } := by
    show (filter.Ideal.init.setGain 2).setGain (2 + 1/10^7) = _
    rw [ha, hb]
  have h2 : filter.Ideal.init.applyOps [.setGain (2 + 1/10^7)] =
      { filter.Ideal.init with gain := 2 + 1/10^7, to_update_para := true } := by
    show filter.Ideal.init.setGain (2 + 1/10^7) = _
    rw [hc]
  rw [hfo, h1, h2]
  norm_num [filter.Ideal.updateMagnitude, filter.Ideal.updateParas,
    filter.Ideal.init]

/-- C5: a pull atomically claims the dirty flag: on `true` it recomputes
once and returns `true`; on `false` it returns `false` and leaves the
state unchanged; and a second pull right after any pull reports unchanged
and changes nothing — for the knee engine (`prepareBuffer`) and the filter
engine (`updateResponse` / `updateMagnitude`) alike. -/
theorem C5_pull_test_and_clear :
    (∀ k : compressor.KneeComputer,
      (k.to_interpolate = true →
        k.prepareBuffer =
          (compressor.KneeComputer.interpolate
            { k with to_interpolate := false }, true))
      ∧ (k.to_interpolate = false → k.prepareBuffer = (k, false))
      ∧ k.prepareBuffer.1.prepareBuffer = (k.prepareBuffer.1, false))
    ∧ (∀ (tbl : filter.DesignTable) (resp : filter.RespFn) (mag : filter.MagFn)
        (wis : List ℂ) (ws : List ℚ) (s : filter.Ideal),
        (s.to_update_para = false →
          filter.Ideal.updateResponse tbl resp wis s = (s, false)
          ∧ filter.Ideal.updateMagnitude tbl mag ws s = (s, false))
        ∧ (s.to_update_para = true →
          (filter.Ideal.updateResponse tbl resp wis s).2 = true
          ∧ (filter.Ideal.updateMagnitude tbl mag ws s).2 = true)
        ∧ filter.Ideal.updateResponse tbl resp wis
            (filter.Ideal.updateResponse tbl resp wis s).1 =
            ((filter.Ideal.updateResponse tbl resp wis s).1, false)
        ∧ filter.Ideal.updateMagnitude tbl mag ws
            (filter.Ideal.updateMagnitude tbl mag ws s).1 =
            ((filter.Ideal.updateMagnitude tbl mag ws s).1, false)) := by
  constructor
  · intro k
    refine ⟨fun h => ?_, fun h => ?_, ?_⟩
    · simp [compressor.KneeComputer.prepareBuffer, h]
    · simp [compressor.KneeComputer.prepareBuffer, h]
    · by_cases h : k.to_interpolate = true
      · simp [compressor.KneeComputer.prepareBuffer, h,
          compressor.interpolate_flag]
      · simp [compressor.KneeComputer.prepareBuffer, h]
  · intro tbl resp mag wis ws s
    refine ⟨fun h => ⟨?_, ?_⟩, fun h => ⟨?_, ?_⟩, ?_, ?_⟩
    · simp [filter.Ideal.updateResponse, h]
    · simp [filter.Ideal.updateMagnitude, h]
    · simp [filter.Ideal.updateResponse, h]
    · simp [filter.Ideal.updateMagnitude, h]
    · by_cases h : s.to_update_para = true
      · simp [filter.Ideal.updateResponse, filter.Ideal.updateParas, h]
      · simp [filter.Ideal.updateResponse, h]
    · by_cases h : s.to_update_para = true
      · simp [filter.Ideal.updateMagnitude, filter.Ideal.updateParas, h]
      · simp [filter.Ideal.updateMagnitude, h]

/-- C5 witness: the gate behaviour instantiated on the fresh engines (flag
raised) and on a cleared knee engine (flag down). -/
theorem C5_pull_test_and_clear_witness :
    (compressor.KneeComputer.init.prepareBuffer =
      (compressor.KneeComputer.interpolate
        { compressor.KneeComputer.init with to_interpolate := false }, true))
    ∧ ({ compressor.KneeComputer.init with
          to_interpolate := false } : compressor.KneeComputer).prepareBuffer =
        ({ compressor.KneeComputer.init with to_interpolate := false }, false)
    ∧ (filter.Ideal.updateResponse (fun _ _ _ _ _ _ => ([], 0))
        (fun _ w => w) [] filter.Ideal.init).2 = true
    ∧ (filter.Ideal.updateMagnitude (fun _ _ _ _ _ _ => ([], 0))
        (fun _ _ => (1:ℝ)) [] filter.Ideal.init).2 = true := by
  refine ⟨(C5_pull_test_and_clear.1 compressor.KneeComputer.init).1 rfl,
    (C5_pull_test_and_clear.1
      { compressor.KneeComputer.init with to_interpolate := false }).2.1 rfl,
    ((C5_pull_test_and_clear.2 (fun _ _ _ _ _ _ => ([], 0)) (fun _ w => w)
      (fun _ _ => (1:ℝ)) [] [] filter.Ideal.init).2.1 rfl).1,
    ((C5_pull_test_and_clear.2 (fun _ _ _ _ _ _ => ([], 0)) (fun _ w => w)
      (fun _ _ => (1:ℝ)) [] [] filter.Ideal.init).2.1 rfl).2⟩

/-- C10: on freshly constructed engines the dirty flag starts raised, so
the very first pull recomputes from the default parameters and returns
`true` even though no setter was ever called. -/
theorem C10_first_pull_recomputes :
    compressor.KneeComputer.init.to_interpolate = true
    ∧ compressor.KneeComputer.init.prepareBuffer =
        (compressor.KneeComputer.interpolate
          { compressor.KneeComputer.init with to_interpolate := false }, true)
    ∧ filter.Ideal.init.to_update_para = true
    ∧ (∀ (tbl : filter.DesignTable) (resp : filter.RespFn) (wis : List ℂ),
        (filter.Ideal.updateResponse tbl resp wis filter.Ideal.init).2 = true)
    ∧ (∀ (tbl : filter.DesignTable) (mag : filter.MagFn) (ws : List ℚ),
        (filter.Ideal.updateMagnitude tbl mag ws filter.Ideal.init).2 = true) := by
  refine ⟨rfl, ?_, rfl, fun tbl resp wis => ?_, fun tbl mag ws => ?_⟩
  · simp [compressor.KneeComputer.prepareBuffer, compressor.KneeComputer.init]
  · simp [filter.Ideal.updateResponse, filter.Ideal.init]
  · simp [filter.Ideal.updateMagnitude, filter.Ideal.init]

end zldsp
